import Mathlib

/-!
Verification of the parser-combinator core in `src/index.ts` (with the binary
primitives `Bit` / `Zero` / `One` taken from the standalone variant file that
contains them). The TypeScript code is shallowly embedded: JS strings become
`List Char`, `DataView` byte buffers become `List Nat`, the untyped
`StateResult` union becomes the inductive `Res`, and every combinator's
state-transformer becomes a Lean function on `ParserState`. The unbounded
`while` loops of `many` / `many1` / `sepBy` / `sepBy1` are embedded with an
explicit fuel parameter; `none` models a loop that has not yet terminated
within the given fuel, so every theorem about them speaks only about runs the
source program itself would complete.
-/

namespace PC

/-- The `StateResult` union of the source (string, string[], DataView, number,
null, or nested arrays), as a tagged variant. `undef` models the JS value
`undefined`, which the source can produce by indexing past a string's end. -/
inductive Res where
  | str : List Char → Res
  | num : Int → Res
  | null : Res
  | undef : Res
  | dv : List Nat → Res
  | arr : List Res → Res

/-- JS `typeof result === "string"`. -/
def Res.isString : Res → Bool
  | .str _ => true
  | _ => false

/-- JS `Array.isArray(result)`. -/
def Res.isArr : Res → Bool
  | .arr _ => true
  | _ => false

/-- The `target` union of the source: a text buffer or a `DataView` over bytes. -/
inductive Target where
  | str : List Char → Target
  | bin : List Nat → Target
deriving DecidableEq

/-- How a target prints inside a JS template literal (used in error messages). -/
def Target.jsString : Target → String
  | .str s => String.mk s
  | .bin _ => "[object DataView]"

/-- The `ParserState` record of the source. The JS object only carries
`errorMessage` once an error occurred; we keep the field always present
(initially `""`), which the object spreads in the source preserve exactly. -/
structure ParserState where
  index : Nat
  target : Target
  result : Res
  isError : Bool
  errorMessage : String

/-- `updateState` (src/index.ts lines 29-39): spread, replacing index and result. -/
def updateState (state : ParserState) (index : Nat) (result : Res) : ParserState :=
  { state with index := index, result := result }

/-- `updateResults` (src/index.ts lines 41-49): spread, replacing only the result. -/
def updateResults (state : ParserState) (results : Res) : ParserState :=
  { state with result := results }

/-- `updateError` (src/index.ts lines 51-60): spread, setting message and flag. -/
def updateError (state : ParserState) (errorMessage : String) : ParserState :=
  { state with errorMessage := errorMessage, isError := true }

/-- The `ParserStateTransformerFn` a `Parser` wraps. -/
def ParserT : Type := ParserState → ParserState

/-- The initial state built by `Parser.run` (src/index.ts lines 69-79). -/
def initialState (target : Target) : ParserState :=
  { index := 0, target := target, result := .null, isError := false, errorMessage := "" }

/-- `Parser.run` (src/index.ts lines 69-79). -/
def run (p : ParserT) (target : Target) : ParserState :=
  p (initialState target)

/-- `Parser.map` (src/index.ts lines 81-89). -/
def map (p : ParserT) (fn : Res → Res) : ParserT := fun parserState =>
  let nextState := p parserState
  if nextState.isError then nextState
  else updateResults nextState (fn nextState.result)

/-- `Parser.errorMap` (src/index.ts lines 91-102); the handler receives the
current error message and index. -/
def errorMap (p : ParserT) (fn : String → Nat → String) : ParserT := fun parserState =>
  let nextState := p parserState
  if !nextState.isError then nextState
  else updateError nextState (fn nextState.errorMessage nextState.index)

/-- `Parser.chain` (src/index.ts lines 104-114). -/
def chain (p : ParserT) (fn : Res → ParserT) : ParserT := fun parserState =>
  let nextState := p parserState
  if nextState.isError then nextState
  else fn nextState.result nextState

/-- `str(s)` (src/index.ts lines 117-149). `target.slice(index)` is
`chars.drop index`; `target.slice(index, index + s.length)` is the further
`take s.length`. -/
def str (s : List Char) : ParserT := fun parserState =>
  if parserState.isError then parserState
  else
    match parserState.target with
    | .str chars =>
      let slicedString := chars.drop parserState.index
      if slicedString.length = 0 then
        updateError parserState
          ("str: Tried to match " ++ String.mk s ++ ", but got end of input")
      else if s.isPrefixOf slicedString then
        updateState parserState (parserState.index + s.length) (.str s)
      else
        updateError parserState
          ("str: Tried to match " ++ String.mk s ++ ", but got " ++
            String.mk (slicedString.take s.length))
    | .bin _ =>
      updateError parserState ("str: Tried to match " ++ String.mk s ++ " with non-string")

/-- Membership in the `[A-Za-z]` class of `LETTERS_REGEX`. -/
def isLetterChar (c : Char) : Bool :=
  ('A' ≤ c && c ≤ 'Z') || ('a' ≤ c && c ≤ 'z')

/-- Membership in the `[0-9]` class of `DIGITS_REGEX`. -/
def isDigitChar (c : Char) : Bool :=
  '0' ≤ c && c ≤ '9'

/-- `letters` (src/index.ts lines 151-182). A match of `/^[A-Za-z]+/` exists
iff the leading run `takeWhile isLetterChar` is nonempty, and `match[0]` is
that run. -/
def letters : ParserT := fun parserState =>
  if parserState.isError then parserState
  else
    match parserState.target with
    | .str chars =>
      let slicedString := chars.drop parserState.index
      if slicedString.length = 0 then
        updateError parserState "letters: Got unexpected  end of input"
      else
        let regexMatch := slicedString.takeWhile isLetterChar
        if regexMatch.length ≠ 0 then
          updateState parserState (parserState.index + regexMatch.length) (.str regexMatch)
        else
          updateError parserState
            ("letters: Couldn't match letters at index " ++ toString parserState.index)
    | .bin b =>
      updateError parserState
        ("letters: Tried to match " ++ (Target.bin b).jsString ++ " with non-string")

/-- `digits` (src/index.ts lines 184-215). The non-string branch of the source
really says `letters:` in its message; we keep that verbatim. -/
def digits : ParserT := fun parserState =>
  if parserState.isError then parserState
  else
    match parserState.target with
    | .str chars =>
      let slicedString := chars.drop parserState.index
      if slicedString.length = 0 then
        updateError parserState "digits: Got unexpected  end of input"
      else
        let regexMatch := slicedString.takeWhile isDigitChar
        if regexMatch.length ≠ 0 then
          updateState parserState (parserState.index + regexMatch.length) (.str regexMatch)
        else
          updateError parserState
            ("digits: Couldn't match digits at index " ++ toString parserState.index)
    | .bin b =>
      updateError parserState
        ("letters: Tried to match " ++ (Target.bin b).jsString ++ " with non-string")

/-- The per-step accumulation of `sequenceOf` (src/index.ts lines 229-235):
`results.push(...r)` when `Array.isArray(r)`, `results.push(r)` otherwise. -/
def spliceRes (r : Res) : List Res :=
  match r with
  | .arr xs => xs
  | _ => [r]

/-- The `for` loop of `sequenceOf` (src/index.ts lines 221-236): thread the raw
next state, accumulate sliced results, abort on the first failure with the
`sequenceOf:` message prefix. -/
def seqLoop (parsers : List ParserT) (results : List Res) (state : ParserState) : ParserState :=
  match parsers with
  | [] => updateResults state (.arr results)
  | p :: rest =>
    let nextState := p state
    if nextState.isError then
      updateError nextState ("sequenceOf: " ++ nextState.errorMessage)
    else
      seqLoop rest (results ++ spliceRes nextState.result) nextState

/-- `sequenceOf(parsers)` (src/index.ts lines 217-242). -/
def sequenceOf (parsers : List ParserT) : ParserT := fun parseState =>
  if parseState.isError then parseState
  else seqLoop parsers [] parseState

/-- The `for` loop of `choice` (src/index.ts lines 248-254): every alternative
is applied to the same `parseState`; the first non-error state is returned. -/
def choiceLoop (parsers : List ParserT) (parseState : ParserState) : ParserState :=
  match parsers with
  | [] =>
    updateError parseState
      ("choice: Unable to match with any parser at index " ++ toString parseState.index)
  | p :: rest =>
    let nextState := p parseState
    if nextState.isError then choiceLoop rest parseState else nextState

/-- `choice(parsers)` (src/index.ts lines 244-260). -/
def choice (parsers : List ParserT) : ParserT := fun parseState =>
  if parseState.isError then parseState
  else choiceLoop parsers parseState

/-- The shared `while` loop of `many` and `many1` (src/index.ts lines 270-278
and 291-299), with fuel. `some (nextState, results)` is the loop's exit
state and collected results; `none` means the fuel ran out first. -/
def manyLoop (p : ParserT) : Nat → ParserState → List Res → Option (ParserState × List Res)
  | 0, _, _ => none
  | fuel + 1, nextState, results =>
    let testState := p nextState
    if testState.isError then some (nextState, results)
    else manyLoop p fuel testState (results ++ [testState.result])

/-- `many(parser)` (src/index.ts lines 262-281), with fuel. -/
def many (fuel : Nat) (p : ParserT) (parseState : ParserState) : Option ParserState :=
  if parseState.isError then some parseState
  else (manyLoop p fuel parseState []).map fun r => updateResults r.1 (.arr r.2)

/-- `many1(parser)` (src/index.ts lines 283-309), with fuel. -/
def many1 (fuel : Nat) (p : ParserT) (parseState : ParserState) : Option ParserState :=
  if parseState.isError then some parseState
  else (manyLoop p fuel parseState []).map fun r =>
    if r.2.length = 0 then
      updateError parseState
        ("many1: Unable to match any input using parser at index " ++ toString parseState.index)
    else updateResults r.1 (.arr r.2)

/-- The `while (true)` loop of `sepBy` (src/index.ts lines 316-329), with fuel.
Every successful value result is pushed. -/
def sepLoop (separatorParser valueParser : ParserT) :
    Nat → ParserState → List Res → Option (ParserState × List Res)
  | 0, _, _ => none
  | fuel + 1, nextState, results =>
    let testState := valueParser nextState
    if testState.isError then some (nextState, results)
    else
      let pushed := results ++ [testState.result]
      let separatorState := separatorParser testState
      if separatorState.isError then some (testState, pushed)
      else sepLoop separatorParser valueParser fuel separatorState pushed

/-- `sepBy(separatorParser)(valueParser)` (src/index.ts lines 311-333), with
fuel. Note the source has no initial `isError` guard here. -/
def sepBy (fuel : Nat) (separatorParser valueParser : ParserT)
    (parserState : ParserState) : Option ParserState :=
  (sepLoop separatorParser valueParser fuel parserState []).map fun r =>
    updateResults r.1 (.arr r.2)

/-- The `while (true)` loop of `sepBy1` (src/index.ts lines 340-355), with
fuel. Unlike `sepBy`, a value result is pushed only when
`typeof testState.result === "string"`. -/
def sep1Loop (separatorParser valueParser : ParserT) :
    Nat → ParserState → List Res → Option (ParserState × List Res)
  | 0, _, _ => none
  | fuel + 1, nextState, results =>
    let testState := valueParser nextState
    if testState.isError then some (nextState, results)
    else
      let pushed := if testState.result.isString then results ++ [testState.result] else results
      let separatorState := separatorParser testState
      if separatorState.isError then some (testState, pushed)
      else sep1Loop separatorParser valueParser fuel separatorState pushed

/-- `sepBy1(separatorParser)(valueParser)` (src/index.ts lines 335-363), with
fuel. The error message of the source really says `sep1:`. -/
def sepBy1 (fuel : Nat) (separatorParser valueParser : ParserT)
    (parserState : ParserState) : Option ParserState :=
  (sep1Loop separatorParser valueParser fuel parserState []).map fun r =>
    if r.2.length < 1 then
      updateError parserState
        ("sep1: Unable to parse any results at index " ++ toString parserState.index)
    else updateResults r.1 (.arr r.2)

/-- The arrow passed to `.map` inside `between` (src/index.ts lines 367-373):
`typeof result == "string" ? result[1] : Array.isArray(result) ?
result.slice(1, result.length - 1) : result`. Indexing a string yields the
one-character string at that position, or `undefined` past the end;
`slice(1, len - 1)` keeps the elements strictly between the first and last. -/
def betweenMap : Res → Res
  | .str cs =>
    match cs.drop 1 with
    | [] => .undef
    | c :: _ => .str [c]
  | .arr xs => .arr ((xs.take (xs.length - 1)).drop 1)
  | r => r

/-- `between(leftParser, rightParser)(contentParser)` (src/index.ts lines
365-373). -/
def between (leftParser rightParser : ParserT) (contentParser : ParserT) : ParserT :=
  map (sequenceOf [leftParser, contentParser, rightParser]) betweenMap

/-- `fail(errMsg)` (src/index.ts lines 382-385). -/
def fail (errMsg : String) : ParserT := fun parserState =>
  updateError parserState errMsg

/-- `succeed(value)` (src/index.ts lines 387-390). -/
def succeed (value : Res) : ParserT := fun parserState =>
  updateResults parserState value

/-- `Bit` (binary-primitives source file, lines 490-509). The source lambda's
body is a single `if (target instanceof DataView) { ... }` with NO else
branch, so on a text target the JS function returns `undefined` — no
`ParserState` at all. We embed the transformer as `Option ParserState`, with
`none` for that fall-through. `getUint8` reads the byte at `index / 8`, and
the bit is extracted MSB-first. -/
def Bit (parserState : ParserState) : Option ParserState :=
  if parserState.isError then some parserState
  else
    match parserState.target with
    | .bin bytes =>
      let byteOffset := parserState.index / 8
      if byteOffset ≥ bytes.length then
        some (updateError parserState "Bit: Unexpected end of input")
      else
        let byte := bytes.getD byteOffset 0
        let bitOffset := 7 - parserState.index % 8
        let result := (byte &&& (1 <<< bitOffset)) >>> bitOffset
        some (updateState parserState (parserState.index + 1) (.num (result : Int)))
    | .str _ => none

/-- `Zero` (binary-primitives source file, lines 511-537); same missing-else
fall-through as `Bit` on a text target. -/
def Zero (parserState : ParserState) : Option ParserState :=
  if parserState.isError then some parserState
  else
    match parserState.target with
    | .bin bytes =>
      let byteOffset := parserState.index / 8
      if byteOffset ≥ bytes.length then
        some (updateError parserState "Zero: Unexpected end of input")
      else
        let byte := bytes.getD byteOffset 0
        let bitOffset := 7 - parserState.index % 8
        let result := (byte &&& (1 <<< bitOffset)) >>> bitOffset
        if result ≠ 0 then
          some (updateError parserState
            ("Zero: expected to get 0, but got " ++ toString result ++ " at index " ++
              toString parserState.index))
        else
          some (updateState parserState (parserState.index + 1) (.num (result : Int)))
    | .str _ => none

/-- `One` (binary-primitives source file, lines 539-565); same missing-else
fall-through as `Bit` on a text target. -/
def One (parserState : ParserState) : Option ParserState :=
  if parserState.isError then some parserState
  else
    match parserState.target with
    | .bin bytes =>
      let byteOffset := parserState.index / 8
      if byteOffset ≥ bytes.length then
        some (updateError parserState "One: Unexpected end of input")
      else
        let byte := bytes.getD byteOffset 0
        let bitOffset := 7 - parserState.index % 8
        let result := (byte &&& (1 <<< bitOffset)) >>> bitOffset
        if result ≠ 1 then
          some (updateError parserState
            ("One: expected to get 1, but got " ++ toString result ++ " at index " ++
              toString parserState.index))
        else
          some (updateState parserState (parserState.index + 1) (.num (result : Int)))
    | .str _ => none

/-- A value the generator passed to `contextual` can yield: either a `Parser`
or some other (non-Parser) runtime value. -/
inductive GenStep where
  | yieldParser : ParserT → GenStep
  | yieldOther : Res → GenStep

/-- A generator program, as `contextual` consumes one: `iterator.next(v)`
either reports `done` with the generator's return value, or yields a value
together with the continuation awaiting the value fed back at that yield. -/
inductive GenProg where
  | done : Res → GenProg
  | step : GenStep → (Res → GenProg) → GenProg

/-- The abort message `contextual` throws (`new Error(...)`) on a non-Parser
yield (src/index.ts line 406). -/
def contextualAbortMsg : String := "contextual: yielded values must always be parsers!"

/-- `runStep` inside `contextual` (src/index.ts lines 396-410), applied to a
state. `done` builds `succeed(value)`; a non-Parser yield throws — modelled as
the `Except.error` channel, which carries no `ParserState` — and a yielded
Parser is run via `chain`: a failed next state is returned as-is, a successful
one is fed back into the generator. -/
def contextualRunStep : GenProg → ParserState → Except String ParserState
  | .done v, s => .ok (succeed v s)
  | .step (.yieldOther _) _, _ => .error contextualAbortMsg
  | .step (.yieldParser p) k, s =>
    let ns := p s
    if ns.isError then .ok ns
    else contextualRunStep (k ns.result) ns

/-- `contextual(generatorFn)` (src/index.ts lines 392-415):
`succeed(null).chain(() => runStep())` applied to a state. -/
def contextual (g : GenProg) (s : ParserState) : Except String ParserState :=
  let s0 := succeed .null s
  if s0.isError then .ok s0
  else contextualRunStep g s0

/-! ## Helper notions and lemmas -/

/-- A parser that passes already-failed states through unchanged (all primitive
matchers of the source do, via their leading `if (isError) return parserState`
guard). -/
def ErrorSticky (p : ParserT) : Prop := ∀ s, s.isError = true → p s = s

/-- A concrete already-failed state, used to instantiate theorems about failure
propagation. -/
def failedState : ParserState :=
  { index := 0, target := .str ['b'], result := .null, isError := true, errorMessage := "orig" }

theorem str_errorSticky (lit : List Char) : ErrorSticky (str lit) := by
  intro s h
  simp [str, h]

theorem spliceRes_of_not_arr {r : Res} (h : r.isArr = false) : spliceRes r = [r] := by
  cases r <;> simp_all [Res.isArr, spliceRes]

theorem spliceRes_arr (xs : List Res) : spliceRes (.arr xs) = xs := rfl

/-! ## Claim theorems -/

/-- C10: for every value `v` and every state `s` whose error flag is set,
`succeed(v)` applied to `s` does not pass `s` through unchanged: it returns a
state carrying the same error flag, message and index, but with the result
field replaced by `v`. -/
theorem succeed_on_failed_state (v : Res) (s : ParserState) (hs : s.isError = true) :
    succeed v s = { s with result := v } ∧
    (succeed v s).isError = true ∧
    (succeed v s).errorMessage = s.errorMessage ∧
    (succeed v s).index = s.index ∧
    (v ≠ s.result → succeed v s ≠ s) := by
  refine ⟨rfl, ?_, rfl, rfl, ?_⟩
  · simpa [succeed, updateResults] using hs
  · intro hne heq
    exact hne (congrArg ParserState.result heq)

theorem succeed_on_failed_state_witness :
    succeed (.num 1) failedState = { failedState with result := .num 1 } ∧
    (succeed (.num 1) failedState).isError = true ∧
    (succeed (.num 1) failedState).errorMessage = failedState.errorMessage ∧
    (succeed (.num 1) failedState).index = failedState.index ∧
    ((.num 1 : Res) ≠ failedState.result → succeed (.num 1) failedState ≠ failedState) :=
  succeed_on_failed_state (.num 1) failedState rfl

/-- C5: the text primitives applied to a binary target do fail with a
descriptive in-band error message, but the binary primitives `Bit`, `Zero` and
`One` applied to a text target fall through their `instanceof DataView` guard
with no return at all (JS `undefined`, embedded as `none`): they return no
state whatsoever, instead of the failed state the claim requires. -/
theorem unsupported_target_behavior :
    (str ['a'] (initialState (.bin [234, 235]))).isError = true ∧
    (str ['a'] (initialState (.bin [234, 235]))).errorMessage
        = "str: Tried to match a with non-string" ∧
    (letters (initialState (.bin [234, 235]))).isError = true ∧
    (letters (initialState (.bin [234, 235]))).errorMessage
        = "letters: Tried to match [object DataView] with non-string" ∧
    (digits (initialState (.bin [234, 235]))).isError = true ∧
    Bit (initialState (.str ['a', 'b', 'c'])) = none ∧
    Zero (initialState (.str ['a', 'b', 'c'])) = none ∧
    One (initialState (.str ['a', 'b', 'c'])) = none :=
  ⟨rfl, rfl, rfl, rfl, rfl, rfl, rfl, rfl⟩

/-- C2 counterexample: `errorMap` applied to an already-failed state does NOT
return it unchanged, even when the wrapped parser is error-sticky — it
replaces the error message with the handler's output. -/
theorem errorMap_changes_failed_state :
    errorMap (str ['a']) (fun _ _ => "changed") failedState ≠ failedState := by
  intro h
  exact absurd (congrArg ParserState.errorMessage h) (by decide)

/-- C2 amended: for every error-sticky parser `p` and every failed state `s`,
`map`, `chain` and `sequenceOf` pass `s` through unchanged and consume no
input; `errorMap` preserves index, target, result and error flag but replaces
the error message with `handler(message, index)`. -/
theorem failed_state_passthrough (p : ParserT) (f : Res → Res) (g : Res → ParserT)
    (h : String → Nat → String) (ps : List ParserT) (s : ParserState)
    (hp : ErrorSticky p) (hs : s.isError = true) :
    map p f s = s ∧ chain p g s = s ∧ sequenceOf ps s = s ∧
    errorMap p h s = { s with errorMessage := h s.errorMessage s.index } := by
  obtain ⟨i, t, r, e, m⟩ := s
  simp only at hs
  subst hs
  have hps := hp ⟨i, t, r, true, m⟩ rfl
  refine ⟨?_, ?_, ?_, ?_⟩ <;>
    simp [map, chain, sequenceOf, errorMap, updateError, hps]

theorem failed_state_passthrough_witness :
    map (str ['a']) (fun r => r) failedState = failedState ∧
    chain (str ['a']) (fun _ => str ['a']) failedState = failedState ∧
    sequenceOf [] failedState = failedState ∧
    errorMap (str ['a']) (fun m _ => m ++ "!") failedState
      = { failedState with errorMessage := failedState.errorMessage ++ "!" } :=
  failed_state_passthrough (str ['a']) (fun r => r) (fun _ => str ['a'])
    (fun m _ => m ++ "!") [] failedState (str_errorSticky ['a']) rfl

theorem choiceLoop_all_fail (parsers : List ParserT) (s : ParserState)
    (hall : ∀ p ∈ parsers, (p s).isError = true) :
    choiceLoop parsers s
      = updateError s ("choice: Unable to match with any parser at index " ++ toString s.index) := by
  induction parsers with
  | nil => rfl
  | cons q rest ih =>
    have hq := hall q (List.mem_cons_self q rest)
    simp only [choiceLoop, hq, if_true]
    exact ih fun p hp => hall p (List.mem_cons_of_mem q hp)

theorem choiceLoop_first_success (ps1 : List ParserT) (p : ParserT) (ps2 : List ParserT)
    (s : ParserState) (hfail : ∀ q ∈ ps1, (q s).isError = true)
    (hp : (p s).isError = false) :
    choiceLoop (ps1 ++ p :: ps2) s = p s := by
  induction ps1 with
  | nil => simp [choiceLoop, hp]
  | cons q rest ih =>
    have hq := hfail q (List.mem_cons_self q rest)
    simp only [List.cons_append, choiceLoop, hq, if_true]
    exact ih fun r hr => hfail r (List.mem_cons_of_mem q hr)

/-- C6: `choice` applies every alternative to the identical starting state (the
loop threads the untouched `parseState`, so a failed alternative consumes
nothing); it returns the full state of the first succeeding alternative, and
when all alternatives fail it returns a failed state at the original index
with the aggregated no-alternative-matched message. -/
theorem choice_first_success_and_all_fail :
    (∀ parsers s, s.isError = false → (∀ p ∈ parsers, (p s).isError = true) →
      choice parsers s
          = updateError s ("choice: Unable to match with any parser at index " ++ toString s.index)
        ∧ (choice parsers s).index = s.index
        ∧ (choice parsers s).target = s.target
        ∧ (choice parsers s).isError = true)
  ∧ (∀ ps1 p ps2 s, s.isError = false → (∀ q ∈ ps1, (q s).isError = true) →
      (p s).isError = false → choice (ps1 ++ p :: ps2) s = p s) := by
  constructor
  · intro parsers s hs hall
    have hc : choice parsers s
        = updateError s ("choice: Unable to match with any parser at index " ++ toString s.index) := by
      simp only [choice, hs, Bool.false_eq_true, if_false]
      exact choiceLoop_all_fail parsers s hall
    exact ⟨hc, by rw [hc]; rfl, by rw [hc]; rfl, by rw [hc]; rfl⟩
  · intro ps1 p ps2 s hs hfail hp
    simp only [choice, hs, Bool.false_eq_true, if_false]
    exact choiceLoop_first_success ps1 p ps2 s hfail hp

theorem choice_first_success_and_all_fail_witness :
    (choice [str ['x']] (initialState (.str ['y']))
        = updateError (initialState (.str ['y']))
            ("choice: Unable to match with any parser at index "
              ++ toString (initialState (Target.str ['y'])).index)
      ∧ (choice [str ['x']] (initialState (.str ['y']))).index
          = (initialState (Target.str ['y'])).index
      ∧ (choice [str ['x']] (initialState (.str ['y']))).target
          = (initialState (Target.str ['y'])).target
      ∧ (choice [str ['x']] (initialState (.str ['y']))).isError = true)
  ∧ choice [str ['x'], letters] (initialState (.str ['y']))
      = letters (initialState (.str ['y'])) := by
  constructor
  · exact choice_first_success_and_all_fail.1 [str ['x']] (initialState (.str ['y'])) rfl
      (fun p hp => by rw [List.mem_singleton.mp hp]; rfl)
  · exact choice_first_success_and_all_fail.2 [str ['x']] letters [] (initialState (.str ['y']))
      rfl (fun q hq => by rw [List.mem_singleton.mp hq]; rfl) rfl

/-- C8 counterexample: the empty input does begin with the empty literal, yet
`str("")` run on `""` fails (the end-of-input guard fires before the
prefix test), contradicting the claim's universal success statement. -/
theorem str_empty_on_empty_input_fails :
    (str [] (initialState (.str []))).isError = true ∧
    (str [] (initialState (.str []))).errorMessage
      = "str: Tried to match , but got end of input" :=
  ⟨rfl, rfl⟩

/-- C8 amended: for every literal and every NONEMPTY input beginning with it,
`str` run from index 0 succeeds with the literal as result and the index
advanced by exactly the literal's length; and every failing `str` application
leaves the index unchanged. -/
theorem str_success_and_failure_index (lit rest : List Char) (h : lit ++ rest ≠ []) :
    str lit (initialState (.str (lit ++ rest)))
      = { index := lit.length, target := .str (lit ++ rest), result := .str lit,
          isError := false, errorMessage := "" }
  ∧ ∀ (lit2 : List Char) (st : ParserState),
      (str lit2 st).isError = true → (str lit2 st).index = st.index := by
  constructor
  · have hlen : ((lit ++ rest).drop 0).length ≠ 0 := by
      simp only [List.drop_zero]
      intro hgood
      exact h (List.eq_nil_of_length_eq_zero hgood)
    have hpre : lit.isPrefixOf ((lit ++ rest).drop 0) = true := by
      simp only [List.drop_zero]
      exact List.isPrefixOf_iff_prefix.mpr (List.prefix_append lit rest)
    simp only [str, initialState, Bool.false_eq_true, if_false, List.drop_zero] at hlen hpre ⊢
    simp [hlen, hpre, updateState]
    intro h1 h2
    subst h1
    subst h2
    exact absurd rfl h
  · intro lit2 st hfail
    by_cases he : st.isError
    · simp [str, he]
    · simp only [Bool.not_eq_true] at he
      rcases htarget : st.target with chars | b
      · by_cases h0 : (chars.drop st.index).length = 0
        · simp [str, he, htarget, h0, updateError]
        · by_cases hpre : lit2.isPrefixOf (chars.drop st.index)
          · have h0' : ¬(chars.length - st.index = 0) := by
              simpa [List.length_drop] using h0
            simp [str, he, htarget, hpre, updateState, h0', List.length_drop] at hfail
          · simp [str, he, htarget, h0, hpre, updateError]
            split <;> rfl
      · simp [str, he, htarget, updateError]

theorem str_success_and_failure_index_witness :
    (str ['a', 'b'] (initialState (.str (['a', 'b'] ++ ['c'])))
      = { index := (['a', 'b'] : List Char).length, target := .str (['a', 'b'] ++ ['c']),
          result := .str ['a', 'b'], isError := false, errorMessage := "" }
  ∧ ∀ (lit2 : List Char) (st : ParserState),
      (str lit2 st).isError = true → (str lit2 st).index = st.index)
  ∧ (['a', 'b'] ++ ['c'] : List Char) ≠ [] :=
  ⟨str_success_and_failure_index ['a', 'b'] ['c'] (by decide), by decide⟩

theorem updateResults_isError (st : ParserState) (x : Res) :
    (updateResults st x).isError = st.isError := rfl

theorem updateResults_result (st : ParserState) (x : Res) :
    (updateResults st x).result = x := rfl

theorem updateResults_updateResults (st : ParserState) (x y : Res) :
    updateResults (updateResults st x) y = updateResults st y := rfl

/-- JS `xs.slice(1, xs.length - 1)` on a list of the shape
first-element ++ middle ++ last-element recovers exactly the middle. -/
theorem take_drop_inner (a b : Res) (mid : List Res) :
    ((a :: (mid ++ [b])).take ((a :: (mid ++ [b])).length - 1)).drop 1 = mid := by
  have hlen : (a :: (mid ++ [b])).length - 1 = mid.length + 1 := by simp
  rw [hlen, List.take_succ_cons, List.drop_one, List.tail_cons, List.take_left]

/-- C1 counterexample: `between(str("("), str(")"))(str("abc"))` run on
`"(abc)"` yields the one-element sequence `["abc"]`, not the bare scalar
`"abc"` the claim demands (the repository's own test expects `["abc"]`). -/
theorem between_wraps_scalar_cx :
    (run (between (str "(".toList) (str ")".toList) (str "abc".toList))
        (.str "(abc)".toList)).result
      = .arr [.str "abc".toList]
  ∧ (Res.arr [.str "abc".toList]) ≠ .str "abc".toList := by
  refine ⟨rfl, ?_⟩
  intro hcontra
  exact Res.noConfusion hcontra

/-- C1 amended: when left, content and right all succeed in sequence (left and
right with scalar results), `between(left, right)(content)` succeeds at the
right parser's final index; its result is the content's bare result when that
result is a sequence, but a SCALAR content result comes back wrapped in a
one-element sequence. -/
theorem between_strips_or_wraps (l r c : ParserT) (s : ParserState)
    (hs : s.isError = false)
    (hl : (l s).isError = false) (hla : (l s).result.isArr = false)
    (hc : (c (l s)).isError = false)
    (hr : (r (c (l s))).isError = false) (hra : ((r (c (l s))).result).isArr = false) :
    (between l r c s).isError = false
  ∧ (between l r c s).index = (r (c (l s))).index
  ∧ ((c (l s)).result.isArr = true → (between l r c s).result = (c (l s)).result)
  ∧ ((c (l s)).result.isArr = false → (between l r c s).result = .arr [(c (l s)).result]) := by
  have hseq : sequenceOf [l, c, r] s
      = updateResults (r (c (l s)))
          (.arr ((l s).result :: (spliceRes (c (l s)).result ++ [(r (c (l s))).result]))) := by
    simp only [sequenceOf, hs, Bool.false_eq_true, if_false, seqLoop, hl, hc, hr,
      spliceRes_of_not_arr hla, spliceRes_of_not_arr hra]
    simp
  have hbet : between l r c s
      = updateResults (r (c (l s))) (.arr (spliceRes (c (l s)).result)) := by
    show map (sequenceOf [l, c, r]) betweenMap s = _
    simp only [map, hseq, updateResults_isError, updateResults_result, hr,
      Bool.false_eq_true, if_false, updateResults_updateResults, betweenMap]
    rw [take_drop_inner]
  refine ⟨by rw [hbet]; exact hr, by rw [hbet]; rfl, ?_, ?_⟩
  · intro harr
    rw [hbet, updateResults_result]
    cases hcr : (c (l s)).result <;> simp_all [Res.isArr, spliceRes]
  · intro hscalar
    rw [hbet, updateResults_result, spliceRes_of_not_arr hscalar]

theorem between_strips_or_wraps_witness :
    (between (str "(".toList) (str ")".toList) (str "abc".toList)
        (initialState (.str "(abc)".toList))).isError = false
  ∧ (between (str "(".toList) (str ")".toList) (str "abc".toList)
        (initialState (.str "(abc)".toList))).index
      = (str ")".toList (str "abc".toList (str "(".toList
          (initialState (.str "(abc)".toList))))).index
  ∧ ((str "abc".toList (str "(".toList (initialState (.str "(abc)".toList)))).result.isArr = true →
      (between (str "(".toList) (str ")".toList) (str "abc".toList)
          (initialState (.str "(abc)".toList))).result
        = (str "abc".toList (str "(".toList (initialState (.str "(abc)".toList)))).result)
  ∧ ((str "abc".toList (str "(".toList (initialState (.str "(abc)".toList)))).result.isArr = false →
      (between (str "(".toList) (str ")".toList) (str "abc".toList)
          (initialState (.str "(abc)".toList))).result
        = .arr [(str "abc".toList (str "(".toList (initialState (.str "(abc)".toList)))).result]) :=
  between_strips_or_wraps (str "(".toList) (str ")".toList) (str "abc".toList)
    (initialState (.str "(abc)".toList)) rfl rfl rfl rfl rfl rfl

theorem manyLoop_no_error (p : ParserT) :
    ∀ (fuel : Nat) (s : ParserState) (acc : List Res) (ns : ParserState) (rs : List Res),
      s.isError = false → manyLoop p fuel s acc = some (ns, rs) → ns.isError = false := by
  intro fuel
  induction fuel with
  | zero =>
    intro s acc ns rs _ hloop
    simp [manyLoop] at hloop
  | succ n ih =>
    intro s acc ns rs hs hloop
    simp only [manyLoop] at hloop
    by_cases ht : (p s).isError
    · simp only [ht, if_true, Option.some.injEq, Prod.mk.injEq] at hloop
      exact hloop.1 ▸ hs
    · rw [if_neg ht] at hloop
      exact ih (p s) (acc ++ [(p s).result]) ns rs (by simpa using ht) hloop

/-- C3: over any terminating run, `many(p)` on a non-failed state never fails,
and `many1(p)` fails — at the original index — exactly when `many(p)` on the
identical input yields zero results; otherwise `many1(p)` returns the very
same state as `many(p)`. -/
theorem many_many1_agreement (fuel : Nat) (p : ParserT) (s st : ParserState)
    (hs : s.isError = false) (hm : many fuel p s = some st) :
    st.isError = false ∧
    ∃ st1, many1 fuel p s = some st1 ∧
      ((st1.isError = true) ↔ st.result = .arr []) ∧
      (st1.isError = true → st1.index = s.index) ∧
      (st.result ≠ .arr [] → st1 = st) := by
  simp only [many, hs, Bool.false_eq_true, if_false, Option.map_eq_some'] at hm
  obtain ⟨⟨ns, rs⟩, hloop, hst⟩ := hm
  have hns : ns.isError = false := manyLoop_no_error p fuel s [] ns rs hs hloop
  subst hst
  refine ⟨hns, ?_⟩
  by_cases hrs : rs = []
  · subst hrs
    refine ⟨updateError s
        ("many1: Unable to match any input using parser at index " ++ toString s.index),
      ?_, ?_, fun _ => rfl, fun hne => absurd rfl hne⟩
    · simp [many1, hs, hloop]
    · simp [updateError, updateResults]
  · refine ⟨updateResults ns (.arr rs), ?_, ?_, ?_, fun _ => rfl⟩
    · simp [many1, hs, hloop, hrs]
    · simp [updateResults_isError, hns, updateResults_result, hrs]
    · intro hcontra
      rw [updateResults_isError] at hcontra
      exact absurd hcontra (by simp [hns])

theorem many_many1_agreement_witness :
    ({ index := 2, target := .str ['a', 'b'], result := .arr [.str ['a', 'b']],
       isError := false, errorMessage := "" } : ParserState).isError = false ∧
    ∃ st1, many1 3 (str ['a', 'b']) (initialState (.str ['a', 'b'])) = some st1 ∧
      ((st1.isError = true) ↔
        ({ index := 2, target := .str ['a', 'b'], result := .arr [.str ['a', 'b']],
           isError := false, errorMessage := "" } : ParserState).result = .arr []) ∧
      (st1.isError = true → st1.index = (initialState (Target.str ['a', 'b'])).index) ∧
      (({ index := 2, target := .str ['a', 'b'], result := .arr [.str ['a', 'b']],
          isError := false, errorMessage := "" } : ParserState).result ≠ .arr [] →
        st1 = { index := 2, target := .str ['a', 'b'], result := .arr [.str ['a', 'b']],
                isError := false, errorMessage := "" }) :=
  many_many1_agreement 3 (str ['a', 'b']) (initialState (.str ['a', 'b']))
    { index := 2, target := .str ['a', 'b'], result := .arr [.str ['a', 'b']],
      isError := false, errorMessage := "" } rfl rfl

/-- C4 counterexample: with `value = sequenceOf([letters])` (whose result is a
sequence, not a string) and `separator = str(",")` on input `"ab,cd"`, the
value/separator cycle collects two values — `sepBy` returns both — yet
`sepBy1` fails, because its loop silently drops every non-string value
result. This contradicts "fails iff zero values were collected". -/
theorem sepBy1_drops_nonstring_cx :
    sepBy 5 (str [',']) (sequenceOf [letters]) (initialState (.str "ab,cd".toList))
      = some { index := 5, target := .str "ab,cd".toList,
               result := .arr [.arr [.str ['a', 'b']], .arr [.str ['c', 'd']]],
               isError := false, errorMessage := "" }
  ∧ sepBy1 5 (str [',']) (sequenceOf [letters]) (initialState (.str "ab,cd".toList))
      = some { index := 0, target := .str "ab,cd".toList, result := .null,
               isError := true,
               errorMessage := "sep1: Unable to parse any results at index 0" } :=
  ⟨rfl, rfl⟩

theorem sep1Loop_eq_filter (sep val : ParserT) :
    ∀ (fuel : Nat) (s : ParserState) (acc : List Res),
      sep1Loop sep val fuel s (acc.filter Res.isString)
        = (sepLoop sep val fuel s acc).map (fun r => (r.1, r.2.filter Res.isString)) := by
  intro fuel
  induction fuel with
  | zero => intro s acc; rfl
  | succ n ih =>
    intro s acc
    simp only [sepLoop, sep1Loop]
    by_cases ht : (val s).isError
    · simp [ht]
    · rw [if_neg ht, if_neg ht]
      have hpush : (if (val s).result.isString then acc.filter Res.isString ++ [(val s).result]
            else acc.filter Res.isString)
          = (acc ++ [(val s).result]).filter Res.isString := by
        by_cases hstr : (val s).result.isString <;>
          simp [hstr, List.filter_append, List.filter]
      rw [hpush]
      by_cases hsep : (sep (val s)).isError
      · simp [hsep]
      · rw [if_neg hsep, if_neg hsep]
        exact ih (sep (val s)) (acc ++ [(val s).result])

/-- C4 amended: over any terminating run of the shared value/separator cycle,
`sepBy1` visits exactly the states `sepBy` visits but collects only the value
results that are strings; it fails, at the original index, iff zero STRING
results were collected, and otherwise returns `sepBy`'s final state with the
non-string results dropped. -/
theorem sepBy1_string_filter (fuel : Nat) (sep val : ParserT) (s ns : ParserState)
    (rs : List Res) (hloop : sepLoop sep val fuel s [] = some (ns, rs)) :
    sepBy fuel sep val s = some (updateResults ns (.arr rs)) ∧
    (rs.filter Res.isString = [] →
      sepBy1 fuel sep val s
        = some (updateError s
            ("sep1: Unable to parse any results at index " ++ toString s.index)) ∧
      (updateError s
          ("sep1: Unable to parse any results at index " ++ toString s.index)).index = s.index ∧
      (updateError s
          ("sep1: Unable to parse any results at index " ++ toString s.index)).isError = true) ∧
    (rs.filter Res.isString ≠ [] →
      sepBy1 fuel sep val s = some (updateResults ns (.arr (rs.filter Res.isString)))) := by
  have h1 : sep1Loop sep val fuel s [] = some (ns, rs.filter Res.isString) := by
    have h2 := sep1Loop_eq_filter sep val fuel s []
    simpa [hloop] using h2
  refine ⟨by simp [sepBy, hloop], ?_, ?_⟩
  · intro hempty
    exact ⟨by simp [sepBy1, h1, hempty], rfl, rfl⟩
  · intro hne
    have hlen : ¬((rs.filter Res.isString).length < 1) := by
      cases hF : rs.filter Res.isString with
      | nil => exact absurd hF hne
      | cons a t => simp
    simp [sepBy1, h1, hlen]

theorem sepBy1_string_filter_witness :
    sepBy 5 (str [',']) (str ['a']) (initialState (.str "a,a".toList))
      = some (updateResults
          { index := 3, target := .str "a,a".toList, result := .str ['a'],
            isError := false, errorMessage := "" }
          (.arr [.str ['a'], .str ['a']])) ∧
    (([.str ['a'], .str ['a']] : List Res).filter Res.isString = [] →
      sepBy1 5 (str [',']) (str ['a']) (initialState (.str "a,a".toList))
        = some (updateError (initialState (.str "a,a".toList))
            ("sep1: Unable to parse any results at index "
              ++ toString (initialState (Target.str "a,a".toList)).index)) ∧
      (updateError (initialState (.str "a,a".toList))
          ("sep1: Unable to parse any results at index "
            ++ toString (initialState (Target.str "a,a".toList)).index)).index
        = (initialState (Target.str "a,a".toList)).index ∧
      (updateError (initialState (.str "a,a".toList))
          ("sep1: Unable to parse any results at index "
            ++ toString (initialState (Target.str "a,a".toList)).index)).isError = true) ∧
    (([.str ['a'], .str ['a']] : List Res).filter Res.isString ≠ [] →
      sepBy1 5 (str [',']) (str ['a']) (initialState (.str "a,a".toList))
        = some (updateResults
            { index := 3, target := .str "a,a".toList, result := .str ['a'],
              isError := false, errorMessage := "" }
            (.arr (([.str ['a'], .str ['a']] : List Res).filter Res.isString)))) :=
  sepBy1_string_filter 5 (str [',']) (str ['a']) (initialState (.str "a,a".toList))
    { index := 3, target := .str "a,a".toList, result := .str ['a'],
      isError := false, errorMessage := "" }
    [.str ['a'], .str ['a']] rfl

/-- C7: on success `sequenceOf` concatenates each step's result with one level
of flattening — a sequence-shaped step result is spliced in, a scalar is
appended — so `sequenceOf([sequenceOf([a,b]), c])` yields
`[aResult, bResult, cResult]`, never `[[aResult,bResult], cResult]`; and on
the first failing step it aborts, prefixing the message with `sequenceOf:`
and keeping the failing state's index. -/
theorem sequenceOf_flatten_and_abort :
    (∀ a b c s, s.isError = false →
      (a s).isError = false → (a s).result.isArr = false →
      (b (a s)).isError = false → (b (a s)).result.isArr = false →
      (c (updateResults (b (a s)) (.arr [(a s).result, (b (a s)).result]))).isError = false →
      (c (updateResults (b (a s)) (.arr [(a s).result, (b (a s)).result]))).result.isArr = false →
      (sequenceOf [sequenceOf [a, b], c] s
          = updateResults (c (updateResults (b (a s)) (.arr [(a s).result, (b (a s)).result])))
              (.arr [(a s).result, (b (a s)).result,
                (c (updateResults (b (a s)) (.arr [(a s).result, (b (a s)).result]))).result])
        ∧ ∀ x y z : Res, (Res.arr [x, y, z]) ≠ .arr [.arr [x, y], z]))
  ∧ (∀ a p rest s, s.isError = false →
      (a s).isError = false → (a s).result.isArr = false →
      (p (a s)).isError = true →
      (sequenceOf (a :: p :: rest) s
          = updateError (p (a s)) ("sequenceOf: " ++ (p (a s)).errorMessage)
        ∧ (sequenceOf (a :: p :: rest) s).index = (p (a s)).index)) := by
  constructor
  · intro a b c s hs ha haa hb hba hc hca
    have hinner : sequenceOf [a, b] s
        = updateResults (b (a s)) (.arr [(a s).result, (b (a s)).result]) := by
      simp only [sequenceOf, hs, Bool.false_eq_true, if_false, seqLoop, ha, hb,
        spliceRes_of_not_arr haa, spliceRes_of_not_arr hba]
      simp
    constructor
    · simp only [sequenceOf, hs, Bool.false_eq_true, if_false]
      simp only [seqLoop, hinner, updateResults_isError, hb, Bool.false_eq_true, if_false,
        updateResults_result, spliceRes_arr, hc, spliceRes_of_not_arr hca]
      simp
    · intro x y z hcontra
      injection hcontra with hlist
      injection hlist with h1 h2
      injection h2 with h3 h4
      exact absurd h4 (List.cons_ne_nil z [])
  · intro a p rest s hs ha haa hp
    have habort : sequenceOf (a :: p :: rest) s
        = updateError (p (a s)) ("sequenceOf: " ++ (p (a s)).errorMessage) := by
      simp only [sequenceOf, hs, Bool.false_eq_true, if_false, seqLoop, ha,
        spliceRes_of_not_arr haa, hp, if_true]
    exact ⟨habort, by rw [habort]; rfl⟩

theorem sequenceOf_flatten_and_abort_witness :
    (sequenceOf [sequenceOf [letters, digits], letters]
          (initialState (.str "abc123def".toList))
        = updateResults
            (letters (updateResults (digits (letters (initialState (.str "abc123def".toList))))
              (.arr [(letters (initialState (.str "abc123def".toList))).result,
                (digits (letters (initialState (.str "abc123def".toList)))).result])))
            (.arr [(letters (initialState (.str "abc123def".toList))).result,
              (digits (letters (initialState (.str "abc123def".toList)))).result,
              (letters (updateResults
                  (digits (letters (initialState (.str "abc123def".toList))))
                  (.arr [(letters (initialState (.str "abc123def".toList))).result,
                    (digits (letters (initialState (.str "abc123def".toList)))).result]))).result])
      ∧ ∀ x y z : Res, (Res.arr [x, y, z]) ≠ .arr [.arr [x, y], z])
  ∧ (sequenceOf [letters, digits] (initialState (.str "abc".toList))
        = updateError (digits (letters (initialState (.str "abc".toList))))
            ("sequenceOf: " ++ (digits (letters (initialState (.str "abc".toList)))).errorMessage)
      ∧ (sequenceOf [letters, digits] (initialState (.str "abc".toList))).index
          = (digits (letters (initialState (.str "abc".toList)))).index) :=
  ⟨sequenceOf_flatten_and_abort.1 letters digits letters
      (initialState (.str "abc123def".toList)) rfl rfl rfl rfl rfl rfl rfl,
    sequenceOf_flatten_and_abort.2 letters digits []
      (initialState (.str "abc".toList)) rfl rfl rfl rfl⟩

theorem succeed_isError (v : Res) (s : ParserState) :
    (succeed v s).isError = s.isError := rfl

/-- C9: a step that yields a non-Parser value makes the whole `contextual`
parser abort through the fatal out-of-band channel (`Except.error`, carrying
no parse state at all — the thrown construction error), never as an ordinary
failed state; whereas an ordinary failure of a yielded Parser is returned
in-band (`Except.ok`) with that failed state propagated unchanged, both at
the first step and through an earlier successful step. -/
theorem contextual_abort_and_propagate :
    (∀ (j : Res) (k : Res → GenProg) (s : ParserState), s.isError = false →
      contextual (.step (.yieldOther j) k) s = .error contextualAbortMsg)
  ∧ (∀ (p : ParserT) (k : Res → GenProg) (s : ParserState), (p s).isError = true →
      contextualRunStep (.step (.yieldParser p) k) s = .ok (p s))
  ∧ (∀ (p : ParserT) (k : Res → GenProg) (s : ParserState), s.isError = false →
      (p (succeed .null s)).isError = true →
      contextual (.step (.yieldParser p) k) s = .ok (p (succeed .null s)))
  ∧ (∀ (p1 p2 : ParserT) (k : Res → Res → GenProg) (s : ParserState), s.isError = false →
      (p1 (succeed .null s)).isError = false →
      (p2 (p1 (succeed .null s))).isError = true →
      contextual (.step (.yieldParser p1) (fun v => .step (.yieldParser p2) (k v))) s
        = .ok (p2 (p1 (succeed .null s)))) := by
  refine ⟨?_, ?_, ?_, ?_⟩
  · intro j k s hs
    simp [contextual, succeed_isError, hs, contextualRunStep]
  · intro p k s hp
    simp [contextualRunStep, hp]
  · intro p k s hs hp
    simp [contextual, succeed_isError, hs, contextualRunStep, hp]
  · intro p1 p2 k s hs h1 h2
    simp [contextual, succeed_isError, hs, contextualRunStep, h1, h2]

theorem contextual_abort_and_propagate_witness :
    contextual (.step (.yieldOther (.num 5)) (fun _ => .done .null)) (initialState (.str ['a']))
      = .error contextualAbortMsg
  ∧ contextual (.step (.yieldParser (str ['z'])) (fun _ => .done .null))
        (initialState (.str ['a']))
      = .ok (str ['z'] (succeed .null (initialState (.str ['a'])))) :=
  ⟨contextual_abort_and_propagate.1 (.num 5) (fun _ => .done .null)
      (initialState (.str ['a'])) rfl,
    contextual_abort_and_propagate.2.2.1 (str ['z']) (fun _ => .done .null)
      (initialState (.str ['a'])) rfl rfl⟩

end PC
